import Mathlib

/-!
Verification of the telemetry ingestion and alert-rules service.

The development shallowly embeds the service's rule engine
(`app/rule_engine.py`), the ingestion orchestrator
(`app/routes/telemetry.py`) and the SSE stream registry
(`app/stream_manager.py`).  Python dictionaries produced by
`TelemetryCreate.dict()` are modelled by the inductive `PyVal`; a Python
`TypeError`/`KeyError` raised by a modelled operation is an
`Except.error ()`.  Machinery the source delegates to external
collaborators (Python float formatting via `str`/`:.4f`, and the shapely
polygon predicates) is abstracted into a `PyOracle` record of functions,
so every theorem below holds for any behaviour of those collaborators.
-/

namespace TelemetrySpec

/-- A Python value as it appears in `telemetry.dict()` and in the
path-extractor: `None`, a number (int or float, both embedded into `ℚ`
since Python compares them exactly), a string, a `datetime` (opaque
instant), a list, or a string-keyed dict (association list in insertion
order). -/
inductive PyVal where
  | none
  | num (q : ℚ)
  | str (s : String)
  | dt (instant : Int)
  | list (elems : List PyVal)
  | dict (entries : List (String × PyVal))

/-- `True` exactly on the constructor modelling Python `None`
(the source tests `value is None`). -/
def PyVal.isNone : PyVal → Bool
  | .none => true
  | _ => false

/-- Whether `needle` occurs at the start of `hay` (over characters). -/
def charsStartWith : List Char → List Char → Bool
  | [], _ => true
  | _ :: _, [] => false
  | n :: ns, h :: hs => n == h && charsStartWith ns hs

/-- Whether `needle` occurs contiguously anywhere in `hay`. -/
def charsHaveSub (needle : List Char) : List Char → Bool
  | [] => needle.isEmpty
  | h :: hs => charsStartWith needle (h :: hs) || charsHaveSub needle hs

/-- Python substring test `needle in s` for strings (`"" in s` is
`True`). -/
def strContainsSub (s needle : String) : Bool :=
  charsHaveSub needle.data s.data

/-- Python `path.split('.')` over the characters of the path: splitting
on every dot, keeping empty segments, `[""]` for the empty string. -/
def splitDotChars : List Char → List (List Char)
  | [] => [[]]
  | c :: rest =>
      let r := splitDotChars rest
      if c == '.' then [] :: r
      else
        match r with
        | h :: t => (c :: h) :: t
        | [] => [[c]]

/-- Python `path.split('.')`. -/
def pySplitDot (s : String) : List String :=
  (splitDotChars s.data).map (fun l => ⟨l⟩)

/-- Python `key.endswith('[]')`: the last two characters are `[` `]`. -/
def endsWithBrackets (s : String) : Bool :=
  match s.data.reverse with
  | ']' :: '[' :: _ => true
  | _ => false

/-- Python `key[:-2]`: drop the last two characters. -/
def dropLastTwo (s : String) : String :=
  ⟨(s.data.reverse.drop 2).reverse⟩

/-- Python membership `key in current` for a string key.  Dicts test key
membership, strings test substring, lists test element equality (a
non-string element never equals a string).  On `None`, numbers and
`datetime` Python raises `TypeError: argument ... is not iterable`,
modelled as `Except.error ()`. -/
def pyContains (key : String) : PyVal → Except Unit Bool
  | .dict entries => .ok (entries.any (fun p => p.1 == key))
  | .str s => .ok (strContainsSub s key)
  | .list elems =>
      .ok (elems.any (fun v => match v with | .str s => s == key | _ => false))
  | _ => .error ()

/-- Python subscript `current[key]` with a string key.  Only dicts
support it; `str[str]` and `list[str]` raise `TypeError`.  A missing dict
key raises `KeyError` (the source only subscripts after a successful
membership test, so that branch is unreachable there). -/
def pyGetItem : PyVal → String → Except Unit PyVal
  | .dict entries, key =>
      match entries.find? (fun p => p.1 == key) with
      | some p => .ok p.2
      | Option.none => .error ()
  | _, _ => .error ()

/-- The `for key in keys` loop of `RuleEngine.get_value_by_path`
(`app/rule_engine.py` lines 31-43), one constructor case per Python
branch: a `key[]` segment returns the array field (or `[]`) and
terminates resolution; a present key descends; a missing key returns
`None` (modelled `.ok .none`). -/
def walkKeys : PyVal → List String → Except Unit PyVal
  | current, [] => .ok current
  | current, key :: rest =>
      if endsWithBrackets key then
        let array_key := dropLastTwo key
        match pyContains array_key current with
        | .error e => .error e
        | .ok false => .ok (.list [])
        | .ok true =>
            match pyGetItem current array_key with
            | .error e => .error e
            | .ok (.list elems) => .ok (.list elems)
            | .ok _ => .ok (.list [])
      else
        match pyContains key current with
        | .error e => .error e
        | .ok false => .ok .none
        | .ok true =>
            match pyGetItem current key with
            | .error e => .error e
            | .ok v => walkKeys v rest

/-- `RuleEngine.get_value_by_path(obj, path)`: split the dotted path and
walk the structure. -/
def get_value_by_path (obj : PyVal) (path : String) : Except Unit PyVal :=
  walkKeys obj (pySplitDot path)

/-! ### The telemetry data model (`app/schemas.py`) -/

/-- `Position` of `app/schemas.py` (lat/lng/speed floats, depth/heading
ints). -/
structure Position where
  lat : ℚ
  lng : ℚ
  depth : Int
  speed : ℚ
  heading : Int
deriving DecidableEq

/-- `Environment` of `app/schemas.py`. -/
structure Environment where
  turbidity_ntu : ℚ
  sediment_mg_l : ℚ
  dissolved_oxygen_mg_l : ℚ
  temperature_c : ℚ
deriving DecidableEq

/-- `Plume` of `app/schemas.py`. -/
structure Plume where
  concentration_mg_l : ℚ
deriving DecidableEq

/-- `SpeciesDetection` of `app/schemas.py`. -/
structure SpeciesDetection where
  name : String
  distance_m : ℚ
deriving DecidableEq

/-- `Battery` of `app/schemas.py`. -/
structure Battery where
  level_pct : Int
  voltage_v : ℚ
deriving DecidableEq

/-- `TelemetryCreate` of `app/schemas.py`; the timestamp is an opaque
instant. -/
structure TelemetryCreate where
  timestamp : Int
  auv_id : String
  position : Position
  env : Environment
  plume : Plume
  species_detections : List SpeciesDetection
  battery : Battery
deriving DecidableEq

/-- `telemetry.dict()`: the nested Python dict pydantic builds from a
`TelemetryCreate`, with fields in declaration order. -/
def telemetryDict (t : TelemetryCreate) : PyVal :=
  .dict
    [ ("timestamp", .dt t.timestamp),
      ("auv_id", .str t.auv_id),
      ("position", .dict
        [ ("lat", .num t.position.lat),
          ("lng", .num t.position.lng),
          ("depth", .num t.position.depth),
          ("speed", .num t.position.speed),
          ("heading", .num t.position.heading) ]),
      ("env", .dict
        [ ("turbidity_ntu", .num t.env.turbidity_ntu),
          ("sediment_mg_l", .num t.env.sediment_mg_l),
          ("dissolved_oxygen_mg_l", .num t.env.dissolved_oxygen_mg_l),
          ("temperature_c", .num t.env.temperature_c) ]),
      ("plume", .dict [("concentration_mg_l", .num t.plume.concentration_mg_l)]),
      ("species_detections", .list (t.species_detections.map
        (fun d => .dict [("name", .str d.name), ("distance_m", .num d.distance_m)]))),
      ("battery", .dict
        [ ("level_pct", .num t.battery.level_pct),
          ("voltage_v", .num t.battery.voltage_v) ]) ]

/-- `AlertRuleConfig` of `app/schemas.py` (the parsed, typed view of a
rule's config payload). -/
structure AlertRuleConfig where
  id : String
  type : String
  path : String
  operator : String
  value : ℚ
  severity : String
  dedupe_window_sec : Int
  zone_type : Option String
  max_minutes : Option Int
deriving DecidableEq

/-- `RuleEvaluationResult` of `app/rule_engine.py` (message and title
default to `""`). -/
structure RuleEvaluationResult where
  triggered : Bool
  message : String
  title : String
deriving DecidableEq

/-- The not-triggered result `RuleEvaluationResult(False)`. -/
def notTriggered : RuleEvaluationResult := ⟨false, "", ""⟩

/-- External collaborators the rule engine calls but that live outside
the repository: Python float/value formatting (`str(x)` in f-strings and
the `:.4f` format spec) and the shapely geometry predicates
(`Polygon(...)` construction succeeding, `polygon.contains(point)`).
Every theorem is proved for an arbitrary oracle. -/
structure PyOracle where
  pyStr : PyVal → String
  fmt4 : ℚ → String
  polygonValid : List (ℚ × ℚ) → Bool
  polyContains : List (ℚ × ℚ) → ℚ × ℚ → Bool

/-- The f-string built at `app/rule_engine.py` lines 72-75. -/
def thresholdMessage (O : PyOracle) (cfg : AlertRuleConfig) (value : PyVal)
    (t : TelemetryCreate) : String :=
  cfg.path ++ " " ++ cfg.operator ++ " " ++ O.pyStr (.num cfg.value) ++
    " (current: " ++ O.pyStr value ++ ") at " ++
    O.fmt4 t.position.lat ++ "," ++ O.fmt4 t.position.lng

/-- One arm of the operator dispatch of `evaluate_threshold`: Python
`value OP rule_config.value` for a relational operator, which raises
`TypeError` unless `value` is a number. -/
def pyRel (cmp : ℚ → ℚ → Bool) : PyVal → ℚ → Except Unit Bool
  | .num q, c => .ok (cmp q c)
  | _, _ => .error ()

/-- Python `value == c` against a float: numbers compare exactly, any
other value is simply unequal (no exception). -/
def pyEqNum : PyVal → ℚ → Bool
  | .num q, c => q == c
  | _, _ => false

/-- The operator dispatch chain of `evaluate_threshold`
(`app/rule_engine.py` lines 58-69); an unrecognized operator leaves
`triggered = False`. -/
def applyOperator (op : String) (value : PyVal) (c : ℚ) : Except Unit Bool :=
  if op == ">" then pyRel (fun a b => a > b) value c
  else if op == "<" then pyRel (fun a b => a < b) value c
  else if op == ">=" then pyRel (fun a b => a ≥ b) value c
  else if op == "<=" then pyRel (fun a b => a ≤ b) value c
  else if op == "==" then .ok (pyEqNum value c)
  else if op == "!=" then .ok (!pyEqNum value c)
  else .ok false

/-- `RuleEngine.evaluate_threshold` (`app/rule_engine.py` lines 46-79).
An `Except.error` models a `TypeError` escaping the function (it is
caught one level up, in `evaluate_rules`). -/
def evaluate_threshold (O : PyOracle) (t : TelemetryCreate)
    (cfg : AlertRuleConfig) : Except Unit RuleEvaluationResult :=
  match get_value_by_path (telemetryDict t) cfg.path with
  | .error e => .error e
  | .ok value =>
      if value.isNone then .ok notTriggered
      else
        match applyOperator cfg.operator value cfg.value with
        | .error e => .error e
        | .ok triggered =>
            if triggered then
              .ok ⟨true, thresholdMessage O cfg value t,
                    cfg.path ++ " threshold exceeded"⟩
            else .ok notTriggered

/-- The f-string built at `app/rule_engine.py` lines 100-103. -/
def proximityMessage (O : PyOracle) (closest : SpeciesDetection)
    (cfg : AlertRuleConfig) (t : TelemetryCreate) : String :=
  "Protected species \"" ++ closest.name ++ "\" detected at " ++
    O.pyStr (.num closest.distance_m) ++ "m (threshold: " ++
    O.pyStr (.num cfg.value) ++ "m) at " ++
    O.fmt4 t.position.lat ++ "," ++ O.fmt4 t.position.lng

/-- Python `min(detections, key=lambda x: x.distance_m)`: the first
element of minimal distance (`min` replaces the running best only on a
strictly smaller key); `none` exactly on the empty list, where Python
would raise. -/
def minByDistance : List SpeciesDetection → Option SpeciesDetection
  | [] => Option.none
  | d :: rest =>
      some (rest.foldl
        (fun best x => if x.distance_m < best.distance_m then x else best) d)

/-- `RuleEngine.evaluate_proximity` (`app/rule_engine.py` lines 82-107). -/
def evaluate_proximity (O : PyOracle) (t : TelemetryCreate)
    (cfg : AlertRuleConfig) : RuleEvaluationResult :=
  if t.species_detections.isEmpty then notTriggered
  else
    let triggered_detections :=
      t.species_detections.filter (fun d => d.distance_m < cfg.value)
    match minByDistance triggered_detections with
    | Option.none => notTriggered
    | some closest =>
        ⟨true, proximityMessage O closest cfg t,
          "Protected species proximity alert"⟩

/-! ### Zone dwell (`app/rule_engine.py` lines 110-144) -/

/-- The `geom` column of a `Zone` row, as seen by
`evaluate_zone_dwell`: either `json.loads` fails on it (`malformed`), or
it parses to a GeoJSON object with a `type` tag and a `coordinates` list
of rings. -/
inductive GeomField where
  | malformed
  | geoJson (ty : String) (rings : List (List (ℚ × ℚ)))
deriving DecidableEq

/-- A `Zone` row (`app/models.py`). -/
structure Zone where
  name : String
  zone_type : String
  geom : GeomField
deriving DecidableEq

/-- Python truthiness of `rule_config.zone_type` (an `Optional[str]`):
`not rule_config.zone_type` is `True` for `None` and for `""`. -/
def zoneTypeFalsy : Option String → Bool
  | Option.none => true
  | some s => s.data.isEmpty

/-- `rule_config.max_minutes or 60`: Python `or` falls through to `60`
on a falsy (`None` or `0`) left operand. -/
def dwellMinutes (cfg : AlertRuleConfig) : Int :=
  match cfg.max_minutes with
  | Option.none => 60
  | some m => if m == 0 then 60 else m

/-- The f-string built at `app/rule_engine.py` lines 134-137. -/
def zoneMessage (O : PyOracle) (z : Zone) (cfg : AlertRuleConfig)
    (t : TelemetryCreate) : String :=
  "AUV in " ++ z.name ++ " for more than " ++ toString (dwellMinutes cfg) ++
    " minutes at " ++ O.fmt4 t.position.lat ++ "," ++ O.fmt4 t.position.lng

/-- The per-zone body of the `for zone in zones` loop: a zone triggers
when its geometry parses, is tagged `Polygon`, has a first ring from
which shapely builds a polygon without raising, and that polygon
contains the point.  All failure branches (parse error, wrong tag,
missing ring, shapely raising) fall through to the next zone. -/
def zoneFires (O : PyOracle) (pt : ℚ × ℚ) (z : Zone) : Bool :=
  match z.geom with
  | .malformed => false
  | .geoJson ty rings =>
      ty == "Polygon" &&
        (match rings with
         | [] => false
         | ring :: _ => O.polygonValid ring && O.polyContains ring pt)

/-- The `for zone in zones` loop of `evaluate_zone_dwell`
(`app/rule_engine.py` lines 124-142): first firing zone wins, every
non-firing or exception-raising zone is skipped. -/
def zoneDwellLoop (O : PyOracle) (t : TelemetryCreate)
    (cfg : AlertRuleConfig) : List Zone → RuleEvaluationResult
  | [] => notTriggered
  | z :: rest =>
      if zoneFires O (t.position.lng, t.position.lat) z then
        ⟨true, zoneMessage O z cfg t, "Zone dwell time exceeded"⟩
      else zoneDwellLoop O t cfg rest

/-- `RuleEngine.evaluate_zone_dwell` (`app/rule_engine.py` lines
110-144).  The zone table is passed in place of the database session;
the `select ... where zone_type == cfg.zone_type` becomes a filter. -/
def evaluate_zone_dwell (O : PyOracle) (zonesDb : List Zone)
    (t : TelemetryCreate) (cfg : AlertRuleConfig) : RuleEvaluationResult :=
  match cfg.zone_type with
  | Option.none => notTriggered
  | some zt =>
      if zt.data.isEmpty then notTriggered
      else zoneDwellLoop O t cfg (zonesDb.filter (fun z => z.zone_type == zt))

/-! ### Rule orchestration (`app/rule_engine.py` lines 147-198) -/

/-- The JSONB `config` column of an `alert_rules` row, modelled through
the three observations the source makes of the raw dict:
`AlertRuleConfig(**config)` (`parsed = none` models a pydantic
`ValidationError`), `config.get("dedupe_window_sec")` and
`config.get("severity", "medium")` in `ingest_telemetry`. -/
structure RawRuleConfig where
  parsed : Option AlertRuleConfig
  dedupe_window_sec_get : Option Int
  severity_get : Option String
deriving DecidableEq

/-- An `alert_rules` row (`app/models.py`). -/
structure AlertRule where
  id : String
  active : Bool
  config : RawRuleConfig
deriving DecidableEq

/-- The type dispatch of `evaluate_rules` (`app/rule_engine.py` lines
163-171): the threshold family, proximity, zone_dwell, or an unknown
type (`.ok none`, logged and skipped).  An `Except.error` is an
exception escaping the evaluator (caught by the per-rule handler). -/
def dispatchRule (O : PyOracle) (zonesDb : List Zone) (t : TelemetryCreate)
    (cfg : AlertRuleConfig) : Except Unit (Option RuleEvaluationResult) :=
  if cfg.type == "threshold" || cfg.type == "battery" || cfg.type == "dissolved_oxygen" then
    match evaluate_threshold O t cfg with
    | .error e => .error e
    | .ok r => .ok (some r)
  else if cfg.type == "proximity" then .ok (some (evaluate_proximity O t cfg))
  else if cfg.type == "zone_dwell" then .ok (some (evaluate_zone_dwell O zonesDb t cfg))
  else .ok Option.none

/-- What one iteration of the `for rule in rules` loop of
`evaluate_rules` contributes: `some r` when the rule parses, evaluates
without an exception and triggers; `none` when it is skipped for any
reason (parse failure, unknown type, exception, or not triggered). -/
def ruleOutcome (O : PyOracle) (zonesDb : List Zone) (t : TelemetryCreate)
    (rule : AlertRule) : Option RuleEvaluationResult :=
  match rule.config.parsed with
  | Option.none => Option.none
  | some cfg =>
      match dispatchRule O zonesDb t cfg with
      | .error _ => Option.none
      | .ok Option.none => Option.none
      | .ok (some r) => if r.triggered then some r else Option.none

/-- The `for rule in rules` loop of `evaluate_rules` (`app/rule_engine.py`
lines 158-178), with the try/except per iteration written out. -/
def evalRulesLoop (O : PyOracle) (zonesDb : List Zone) (t : TelemetryCreate) :
    List AlertRule → List RuleEvaluationResult
  | [] => []
  | rule :: rest =>
      match rule.config.parsed with
      | Option.none => evalRulesLoop O zonesDb t rest
      | some cfg =>
          match dispatchRule O zonesDb t cfg with
          | .error _ => evalRulesLoop O zonesDb t rest
          | .ok Option.none => evalRulesLoop O zonesDb t rest
          | .ok (some r) =>
              if r.triggered then r :: evalRulesLoop O zonesDb t rest
              else evalRulesLoop O zonesDb t rest

/-- `RuleEngine.evaluate_rules` (`app/rule_engine.py` lines 147-180):
the `select ... where active == True` becomes a filter over the rule
table. -/
def evaluate_rules (O : PyOracle) (zonesDb : List Zone)
    (rulesDb : List AlertRule) (t : TelemetryCreate) : List RuleEvaluationResult :=
  evalRulesLoop O zonesDb t (rulesDb.filter (fun r => r.active))

/-- An `alerts` row (`app/models.py`); `created_at` defaults to the
creation instant. -/
structure AlertRow where
  auv_id : String
  rule_id : String
  severity : String
  title : String
  message : String
  created_at : Int
deriving DecidableEq

/-- SQLAlchemy `Result.scalar_one_or_none()`: `none` on no row, the row
if unique, and `MultipleResultsFound` (an exception, `Except.error`) on
two or more rows. -/
def scalarOneOrNone {α : Type} : List α → Except Unit (Option α)
  | [] => .ok Option.none
  | [a] => .ok (some a)
  | _ => .error ()

/-- The row filter of the dedup query (`app/rule_engine.py` lines
189-193): same AUV, same rule, `created_at >= window_start`. -/
def dedupMatches (auv_id rule_id : String) (window_start : Int)
    (a : AlertRow) : Bool :=
  a.auv_id == auv_id && a.rule_id == rule_id && window_start ≤ a.created_at

/-- `RuleEngine.check_deduplication` (`app/rule_engine.py` lines
183-198): `window_start = now - dedupe_window_sec`; permit iff the query
finds no matching alert.  The alert table stands in for the session; the
current instant is passed explicitly. -/
def check_deduplication (alertsDb : List AlertRow) (auv_id rule_id : String)
    (dedupe_window_sec : Int) (now : Int) : Except Unit Bool :=
  let window_start := now - dedupe_window_sec
  match scalarOneOrNone (alertsDb.filter (dedupMatches auv_id rule_id window_start)) with
  | .error e => .error e
  | .ok existing => .ok existing.isNone

/-! ### Ingestion orchestrator (`app/routes/telemetry.py` lines 39-140) -/

/-- One publish call made during an ingestion, in order: an alert event
(`stream_manager.send_alert_event`, line 112) or the telemetry event
(`stream_manager.send_telemetry_event`, line 127). -/
inductive StreamEvent where
  | alertEvent (a : AlertRow)
  | telemetryEvent (auv_id : String)
deriving DecidableEq

/-- Python truthiness of `config.get("dedupe_window_sec")`: falsy when
the key is absent or its value is `0`. -/
def truthyDedupe : Option Int → Bool
  | Option.none => false
  | some w => w != 0

/-- The database tables and the clock an ingestion sees: the rule table,
the zone table, the pre-existing alerts, and the current instant (time
is frozen for the duration of the request). -/
structure IngestEnv where
  rulesDb : List AlertRule
  zonesDb : List Zone
  alertsDb : List AlertRow
  now : Int

/-- The accumulating state of the alert-creation loops of
`ingest_telemetry`: alerts added to the session so far (visible to the
dedup query through autoflush), the `alerts_generated` counter, and the
publishes performed so far. -/
structure IngestState where
  newAlerts : List AlertRow
  alertsGenerated : Nat
  events : List StreamEvent
deriving DecidableEq

/-- The `Alert(...)` row constructed at `app/routes/telemetry.py` lines
89-97: the iterated rule's id and severity (default `"medium"`),
the evaluation result's title and message, created at the current
instant. -/
def mkAlertRow (env : IngestEnv) (t : TelemetryCreate)
    (result : RuleEvaluationResult) (rule : AlertRule) : AlertRow :=
  { auv_id := t.auv_id,
    rule_id := rule.id,
    severity := rule.config.severity_get.getD "medium",
    title := result.title,
    message := result.message,
    created_at := env.now }

/-- The inner `for rule in rules.scalars()` loop of `ingest_telemetry`
(`app/routes/telemetry.py` lines 76-112) for one evaluation `result`:
every active rule whose raw config carries a truthy
`dedupe_window_sec` is dedup-checked, and on permission an alert row
carrying the rule's id and severity but the result's title and message
is added and published. -/
def processRules (env : IngestEnv) (t : TelemetryCreate)
    (result : RuleEvaluationResult) :
    List AlertRule → IngestState → Except Unit IngestState
  | [], st => .ok st
  | rule :: rest, st =>
      match rule.config.dedupe_window_sec_get with
      | Option.none => processRules env t result rest st
      | some w =>
          if w == 0 then processRules env t result rest st
          else
            match check_deduplication (env.alertsDb ++ st.newAlerts)
                t.auv_id rule.id w env.now with
            | .error e => .error e
            | .ok false => processRules env t result rest st
            | .ok true =>
                processRules env t result rest
                  { newAlerts := st.newAlerts ++ [mkAlertRow env t result rule],
                    alertsGenerated := st.alertsGenerated + 1,
                    events := st.events ++ [.alertEvent (mkAlertRow env t result rule)] }

/-- The outer `for result in rule_results` loop of `ingest_telemetry`
(`app/routes/telemetry.py` lines 71-112); the re-executed
`select(AlertRule).where(active == True)` yields the same filtered rule
list for every result. -/
def processResults (env : IngestEnv) (t : TelemetryCreate) :
    List RuleEvaluationResult → IngestState → Except Unit IngestState
  | [], st => .ok st
  | result :: rest, st =>
      match processRules env t result (env.rulesDb.filter (fun r => r.active)) st with
      | .error e => .error e
      | .ok st2 => processResults env t rest st2

/-- The observable outcome of a successful `ingest_telemetry` call:
the `alerts_generated` counter of the response, the alert rows inserted,
and the stream publishes in order. -/
structure IngestOutput where
  alertsGenerated : Nat
  newAlerts : List AlertRow
  events : List StreamEvent
deriving DecidableEq

/-- `ingest_telemetry` (`app/routes/telemetry.py` lines 39-140) on its
success path: evaluate the active rules, run the alert-creation loops
(publishing alert events as alerts are created), commit, then publish
the telemetry event.  An `Except.error` is an exception inside the
`try` (the route then rolls back and returns HTTP 500 with no events
beyond those already published). -/
def ingest_telemetry (O : PyOracle) (env : IngestEnv) (t : TelemetryCreate) :
    Except Unit IngestOutput :=
  let rule_results := evaluate_rules O env.zonesDb env.rulesDb t
  match processResults env t rule_results ⟨[], 0, []⟩ with
  | .error e => .error e
  | .ok st =>
      .ok { alertsGenerated := st.alertsGenerated,
            newAlerts := st.newAlerts,
            events := st.events ++ [.telemetryEvent t.auv_id] }

/-! ### Stream registry (`app/stream_manager.py`) -/

/-- One subscriber sink: a `Request` handed to the registry, observed
through `await request.is_disconnected()` and whether
`await request.send_json(...)` raises.  Sinks compare like Python
`Request` objects compare under `!=` in `remove_alert_stream`: two
registry entries are the same subscriber exactly when they are the same
value. -/
structure Sink where
  sid : Nat
  disconnected : Bool
  sendOk : Bool
deriving DecidableEq

/-- The `alert_streams` dict: subscription key → list of sinks
(insertion order).  A Python dict never holds a key twice; theorems that
need this carry a `Nodup` hypothesis on the keys. -/
abbrev Registry : Type := List (String × List Sink)

/-- Dict lookup `self.alert_streams[key]` (first matching entry),
`none` when the key is absent. -/
def lookupStreams : Registry → String → Option (List Sink)
  | [], _ => Option.none
  | (k, sinks) :: rest, key =>
      if k == key then some sinks else lookupStreams rest key

/-- The sink list under a key, `[]` when the key is absent. -/
def streamsUnder (reg : Registry) (key : String) : List Sink :=
  (lookupStreams reg key).getD []

/-- `StreamManager.remove_alert_stream` (`app/stream_manager.py` lines
36-45) with a non-null `auv_id`: filter the sink out of its key's list,
deleting the key once the list is empty; a no-op when the key is
absent. -/
def remove_alert_stream : Registry → String → Sink → Registry
  | [], _, _ => []
  | (k, sinks) :: rest, key, s =>
      if k == key then
        let remaining := sinks.filter (fun r => !(r == s))
        if remaining.isEmpty then rest else (k, remaining) :: rest
      else (k, sinks) :: remove_alert_stream rest key s

/-- The `for request in streams` loop of `_send_to_alert_streams`
(`app/stream_manager.py` lines 121-132) over the snapshot copy:
a sink reporting disconnected is pruned and skipped; otherwise
`send_json` is called (recorded in the send log), and if it raises the
sink is pruned; either way the loop continues. -/
def sendLoop (key : String) :
    List Sink → Registry → List Sink → Registry × List Sink
  | [], reg, sent => (reg, sent)
  | s :: rest, reg, sent =>
      if s.disconnected then
        sendLoop key rest (remove_alert_stream reg key s) sent
      else if s.sendOk then sendLoop key rest reg (sent ++ [s])
      else sendLoop key rest (remove_alert_stream reg key s) (sent ++ [s])

/-- `StreamManager._send_to_alert_streams` (`app/stream_manager.py`
lines 111-132): return unchanged if the key is absent, else copy the
key's list and deliver outside the lock.  The second component is the
log of sinks on which `send_json` was invoked, in order. -/
def send_to_alert_streams (reg : Registry) (key : String) :
    Registry × List Sink :=
  match lookupStreams reg key with
  | Option.none => (reg, [])
  | some streams => sendLoop key streams reg []

/-- `StreamManager.send_alert_event` (`app/stream_manager.py` lines
58-74): one pass for the specific key when `auv_id` is truthy (a
non-`None`, non-empty string), then an independent pass for `"all"`. -/
def send_alert_event (reg : Registry) (auv_id : Option String) :
    Registry × List Sink :=
  let pass1 :=
    match auv_id with
    | Option.none => (reg, ([] : List Sink))
    | some key =>
        if key.data.isEmpty then (reg, []) else send_to_alert_streams reg key
  let pass2 := send_to_alert_streams pass1.1 "all"
  (pass2.1, pass1.2 ++ pass2.2)

/-- The sample telemetry record of `tests/test_rule_engine.py`. -/
def sampleTelemetry : TelemetryCreate :=
  { timestamp := 0,
    auv_id := "AUV-003",
    position := { lat := mkRat (-146572) 10000, lng := mkRat (-1254251) 10000,
                  depth := 3210, speed := mkRat 12 10, heading := 278 },
    env := { turbidity_ntu := mkRat 87 10, sediment_mg_l := mkRat 123 10,
             dissolved_oxygen_mg_l := mkRat 68 10, temperature_c := mkRat 43 10 },
    plume := { concentration_mg_l := 52 },
    species_detections := [{ name := "Benthic Octopod", distance_m := 120 }],
    battery := { level_pct := 32, voltage_v := mkRat 441 10 } }

/-- A trivial oracle for concrete witnesses. -/
def trivOracle : PyOracle :=
  { pyStr := fun _ => "", fmt4 := fun _ => "",
    polygonValid := fun _ => true, polyContains := fun _ _ => true }

/-- Spec-side comparison table (from the claim's wording): whether
`a op b` holds under the six standard relational/equality operators. -/
def specOpHolds (op : String) (a b : ℚ) : Bool :=
  if op = ">" then a > b
  else if op = "<" then a < b
  else if op = ">=" then a ≥ b
  else if op = "<=" then a ≤ b
  else if op = "==" then a = b
  else if op = "!=" then a ≠ b
  else false

/-- The sample threshold rule config of `tests/test_rule_engine.py`
(sediment above 10). -/
def sampleThresholdCfg : AlertRuleConfig :=
  { id := "TEST-RULE", type := "threshold", path := "env.sediment_mg_l",
    operator := ">", value := 10, severity := "high",
    dedupe_window_sec := 300, zone_type := Option.none,
    max_minutes := Option.none }

/-- The sample zone of `tests/test_rule_engine.py` (a rectangle around
the sample position, given as a lon/lat ring). -/
def sampleZone : Zone :=
  { name := "Test Zone", zone_type := "sensitive",
    geom := .geoJson "Polygon"
      [[ (mkRat (-1255) 10, mkRat (-147) 10),
         (mkRat (-1253) 10, mkRat (-147) 10),
         (mkRat (-1253) 10, mkRat (-146) 10),
         (mkRat (-1255) 10, mkRat (-146) 10),
         (mkRat (-1255) 10, mkRat (-147) 10) ]] }

/-- A zone whose `geom` column does not parse as JSON. -/
def badZone : Zone :=
  { name := "Bad Zone", zone_type := "sensitive", geom := .malformed }

/-- The sample zone-dwell rule config of `tests/test_rule_engine.py`. -/
def sampleZoneCfg : AlertRuleConfig :=
  { id := "TEST-RULE", type := "zone_dwell", path := "position",
    operator := "in", value := 0, severity := "medium",
    dedupe_window_sec := 1800, zone_type := some "sensitive",
    max_minutes := some 60 }

/-- An active threshold rule whose raw config parses and carries a
300-second dedupe window. -/
def ruleR1 : AlertRule :=
  { id := "R1", active := true,
    config := { parsed := some sampleThresholdCfg,
                dedupe_window_sec_get := some 300,
                severity_get := some "high" } }

/-- An active rule of unknown type (never triggers) whose raw config
still carries a dedupe window and no severity. -/
def ruleR2 : AlertRule :=
  { id := "R2", active := true,
    config := { parsed := some { sampleThresholdCfg with type := "unknown" },
                dedupe_window_sec_get := some 300,
                severity_get := Option.none } }

/-- An active triggering rule whose raw config carries no
`dedupe_window_sec` key. -/
def ruleNoWindow : AlertRule :=
  { id := "R3", active := true,
    config := { parsed := some sampleThresholdCfg,
                dedupe_window_sec_get := Option.none,
                severity_get := some "low" } }

/-- Sample ingestion environment: two active rules with dedupe windows,
no zones, no prior alerts. -/
def sampleEnv : IngestEnv :=
  { rulesDb := [ruleR1, ruleR2], zonesDb := [], alertsDb := [], now := 1000 }

/-- Ingestion environment whose single (triggering) active rule has no
dedupe window. -/
def envNoWindow : IngestEnv :=
  { rulesDb := [ruleNoWindow], zonesDb := [], alertsDb := [], now := 1000 }

/-- The evaluation result the sample threshold rule produces on the
sample record. -/
def sampleResult : RuleEvaluationResult :=
  ⟨true,
    thresholdMessage trivOracle sampleThresholdCfg (.num (mkRat 123 10))
      sampleTelemetry,
    "env.sediment_mg_l threshold exceeded"⟩

/-- The alert row the sample ingestion creates while iterating `ruleR1`. -/
def alertRowR1 : AlertRow := mkAlertRow sampleEnv sampleTelemetry sampleResult ruleR1

/-- The alert row the sample ingestion creates while iterating `ruleR2`
(whose own evaluation never triggered). -/
def alertRowR2 : AlertRow := mkAlertRow sampleEnv sampleTelemetry sampleResult ruleR2

/-- The observable outcome of ingesting the sample record in
`sampleEnv`: one triggered result, two alerts. -/
def sampleIngestOut : IngestOutput :=
  { alertsGenerated := 2,
    newAlerts := [alertRowR1, alertRowR2],
    events := [.alertEvent alertRowR1, .alertEvent alertRowR2,
               .telemetryEvent "AUV-003"] }

/-- Connected sink that accepts sends, registered under `"AUV-001"`. -/
def sinkA : Sink := ⟨1, false, true⟩

/-- Connected sink that accepts sends, registered under `"all"`. -/
def sinkB : Sink := ⟨2, false, true⟩

/-- Sink that reports itself disconnected. -/
def sinkC : Sink := ⟨3, true, true⟩

/-- Sample registry: `sinkA` and the disconnected `sinkC` under
`"AUV-001"`, `sinkB` under `"all"`. -/
def sampleRegistry : Registry :=
  [("AUV-001", [sinkA, sinkC]), ("all", [sinkB])]

/-- An active rule whose config payload fails to parse into
`AlertRuleConfig`. -/
def badRule : AlertRule :=
  { id := "BAD", active := true,
    config := { parsed := Option.none,
                dedupe_window_sec_get := Option.none,
                severity_get := Option.none } }

/-! ## Theorems -/

/-- `check_deduplication` permits exactly when the filtered query is
empty. -/
theorem check_dedup_ok_true_iff (alertsDb : List AlertRow)
    (auv_id rule_id : String) (w now : Int) :
    check_deduplication alertsDb auv_id rule_id w now = .ok true ↔
      alertsDb.filter (dedupMatches auv_id rule_id (now - w)) = [] := by
  unfold check_deduplication
  rcases h : alertsDb.filter (dedupMatches auv_id rule_id (now - w)) with
    _ | ⟨a, _ | ⟨b, rest⟩⟩ <;>
    simp [h, scalarOneOrNone]

/-- C3: for every auv_id, rule_id and window, `check_deduplication`
returns true iff no alert row has that auv_id, that rule_id and a
creation timestamp at least `now - window_seconds`; in particular a
single prior alert created 1 second ago is blocked by a 300-second
window, and one created 301 seconds ago is permitted. -/
theorem check_deduplication_spec (alertsDb : List AlertRow)
    (auv_id rule_id : String) (w now : Int) :
    (check_deduplication alertsDb auv_id rule_id w now = .ok true ↔
      ∀ a ∈ alertsDb,
        ¬(a.auv_id = auv_id ∧ a.rule_id = rule_id ∧ now - w ≤ a.created_at))
    ∧ (∀ sev title msg,
        check_deduplication [⟨auv_id, rule_id, sev, title, msg, now - 1⟩]
          auv_id rule_id 300 now = .ok false)
    ∧ (∀ sev title msg,
        check_deduplication [⟨auv_id, rule_id, sev, title, msg, now - 301⟩]
          auv_id rule_id 300 now = .ok true) := by
  refine ⟨?_, ?_, ?_⟩
  · rw [check_dedup_ok_true_iff, List.filter_eq_nil_iff]
    apply forall_congr'
    intro a
    apply imp_congr Iff.rfl
    simp [dedupMatches, and_assoc]
  · intro sev title msg
    have hc : dedupMatches auv_id rule_id (now - 300)
        ⟨auv_id, rule_id, sev, title, msg, now - 1⟩ = true := by
      simp [dedupMatches]
      omega
    simp [check_deduplication, List.filter, hc, scalarOneOrNone]
  · intro sev title msg
    have hc : dedupMatches auv_id rule_id (now - 300)
        ⟨auv_id, rule_id, sev, title, msg, now - 301⟩ = false := by
      simp [dedupMatches]
      omega
    simp [check_deduplication, List.filter, hc, scalarOneOrNone]

/-- C6 counterexample: resolving the path `env.sediment_mg_l.x` against
the sample record makes the third segment look up into a number, and
`get_value_by_path` raises `TypeError` (modelled `.error ()`) instead of
yielding absent. -/
theorem get_value_by_path_raises_on_number :
    get_value_by_path (telemetryDict sampleTelemetry) "env.sediment_mg_l.x"
      = .error () := rfl

/-- C6 amended: a missing (non-`[]`) intermediate segment of a dict
yields absent and never raises, but a segment that looks up into a
number raises `TypeError` (modelled `.error ()`) rather than yielding
absent. -/
theorem walkKeys_amended_safety :
    (∀ (entries : List (String × PyVal)) (key : String) (rest : List String),
      endsWithBrackets key = false →
      entries.any (fun p => p.1 == key) = false →
      walkKeys (.dict entries) (key :: rest) = .ok .none)
    ∧ (∀ (q : ℚ) (key : String) (rest : List String),
      walkKeys (.num q) (key :: rest) = .error ()) := by
  constructor
  · intro entries key rest hkey hmiss
    simp [walkKeys, hkey, pyContains, hmiss]
  · intro q key rest
    unfold walkKeys
    rcases h : endsWithBrackets key <;> simp [h, pyContains]

/-- Closed instance of the hypotheses and conclusion of
`walkKeys_amended_safety`. -/
theorem walkKeys_amended_safety_witness :
    (endsWithBrackets "x" = false
      ∧ [("a", PyVal.num 1)].any (fun p => p.1 == "x") = false)
    ∧ walkKeys (.dict [("a", PyVal.num 1)]) ["x"] = .ok .none :=
  ⟨⟨by decide, by decide⟩,
    walkKeys_amended_safety.1 [("a", PyVal.num 1)] "x" []
      (by decide) (by decide)⟩

/-- C1: for every telemetry record and threshold-family rule config with
one of the six operators, `evaluate_threshold` is not triggered when the
path resolves to absent, and otherwise (for a numeric resolved value) is
triggered exactly when the resolved value compared to the config's value
under the config's operator holds, with the title
`"{path} threshold exceeded"` and the message
`"{path} {operator} {value} (current: {resolved}) at {lat:.4f},{lng:.4f}"`. -/
theorem evaluate_threshold_spec (O : PyOracle) (t : TelemetryCreate)
    (cfg : AlertRuleConfig)
    (hop : cfg.operator ∈ ([">", "<", ">=", "<=", "==", "!="] : List String)) :
    (get_value_by_path (telemetryDict t) cfg.path = .ok .none →
      evaluate_threshold O t cfg = .ok notTriggered)
    ∧ (∀ q : ℚ, get_value_by_path (telemetryDict t) cfg.path = .ok (.num q) →
      evaluate_threshold O t cfg =
        .ok (if specOpHolds cfg.operator q cfg.value then
              ⟨true, thresholdMessage O cfg (.num q) t,
                cfg.path ++ " threshold exceeded"⟩
             else notTriggered)) := by
  constructor
  · intro h
    simp [evaluate_threshold, h, PyVal.isNone]
  · intro q h
    simp only [evaluate_threshold, h, PyVal.isNone]
    simp only [List.mem_cons, List.not_mem_nil, or_false] at hop
    rcases hop with hop | hop | hop | hop | hop | hop
    · rw [hop]; simp [applyOperator, pyRel, specOpHolds]
      split <;> rfl
    · rw [hop]; simp [applyOperator, pyRel, specOpHolds]
      split <;> rfl
    · rw [hop]; simp [applyOperator, pyRel, specOpHolds]
      split <;> rfl
    · rw [hop]; simp [applyOperator, pyRel, specOpHolds]
      split <;> rfl
    · rw [hop]; simp [applyOperator, pyEqNum, specOpHolds]
      split <;> rfl
    · rw [hop]; simp [applyOperator, pyEqNum, specOpHolds]
      split <;> rfl

/-- Closed instance of `evaluate_threshold_spec`: the sample record's
sediment (12.3) against the sample `>` 10 rule. -/
theorem evaluate_threshold_spec_witness :
    sampleThresholdCfg.operator ∈ ([">", "<", ">=", "<=", "==", "!="] : List String)
    ∧ evaluate_threshold trivOracle sampleTelemetry sampleThresholdCfg =
        .ok (if specOpHolds sampleThresholdCfg.operator (mkRat 123 10)
                sampleThresholdCfg.value then
              ⟨true, thresholdMessage trivOracle sampleThresholdCfg
                  (.num (mkRat 123 10)) sampleTelemetry,
                sampleThresholdCfg.path ++ " threshold exceeded"⟩
             else notTriggered) :=
  ⟨by decide,
    (evaluate_threshold_spec trivOracle sampleTelemetry sampleThresholdCfg
      (by decide)).2 (mkRat 123 10) rfl⟩

/-- The running minimum of Python `min(..., key=...)` is one of the
candidates. -/
theorem foldlMinBy_mem (d : SpeciesDetection) (l : List SpeciesDetection) :
    l.foldl (fun best x => if x.distance_m < best.distance_m then x else best) d
      ∈ d :: l := by
  induction l generalizing d with
  | nil => simp
  | cons a as ih =>
    simp only [List.foldl_cons]
    have h := ih (if a.distance_m < d.distance_m then a else d)
    rw [List.mem_cons] at h
    rcases h with h | h
    · by_cases hc : a.distance_m < d.distance_m
      · rw [if_pos hc] at h ⊢
        rw [h]
        simp
      · rw [if_neg hc] at h ⊢
        rw [h]
        simp
    · simp [List.mem_cons, h]

/-- The running minimum of Python `min(..., key=...)` has the least
key among the candidates. -/
theorem foldlMinBy_le (d : SpeciesDetection) (l : List SpeciesDetection) :
    ∀ x ∈ d :: l,
      (l.foldl (fun best x => if x.distance_m < best.distance_m then x else best)
        d).distance_m ≤ x.distance_m := by
  induction l generalizing d with
  | nil =>
    intro x hx
    simp at hx
    subst hx
    simp
  | cons a as ih =>
    intro x hx
    have hb : (if a.distance_m < d.distance_m then a else d).distance_m ≤ d.distance_m
        ∧ (if a.distance_m < d.distance_m then a else d).distance_m ≤ a.distance_m := by
      by_cases hc : a.distance_m < d.distance_m
      · rw [if_pos hc]
        exact ⟨le_of_lt hc, le_refl _⟩
      · rw [if_neg hc]
        exact ⟨le_refl _, le_of_not_lt hc⟩
    have hmin := ih (if a.distance_m < d.distance_m then a else d) _
      (List.mem_cons_self _ _)
    simp only [List.mem_cons] at hx
    simp only [List.foldl_cons]
    rcases hx with hx | hx | hx
    · rw [hx]
      exact le_trans hmin hb.1
    · rw [hx]
      exact le_trans hmin hb.2
    · exact ih _ x (List.mem_cons_of_mem _ hx)

/-- `minByDistance` returns nothing exactly on the empty list. -/
theorem minByDistance_eq_none_iff (l : List SpeciesDetection) :
    minByDistance l = Option.none ↔ l = [] := by
  cases l <;> simp [minByDistance]

/-- Python `min` picks one of the candidates. -/
theorem minByDistance_mem {l : List SpeciesDetection} {c : SpeciesDetection}
    (h : minByDistance l = some c) : c ∈ l := by
  cases l with
  | nil => cases h
  | cons a as =>
    simp only [minByDistance, Option.some.injEq] at h
    rw [← h]
    exact foldlMinBy_mem a as

/-- Python `min` picks a candidate of least key. -/
theorem minByDistance_min {l : List SpeciesDetection} {c : SpeciesDetection}
    (h : minByDistance l = some c) :
    ∀ x ∈ l, c.distance_m ≤ x.distance_m := by
  cases l with
  | nil => cases h
  | cons a as =>
    simp only [minByDistance, Option.some.injEq] at h
    rw [← h]
    exact foldlMinBy_le a as

/-- C4: `evaluate_proximity` is never triggered on an empty
species-detection list (whatever the configured value and operator);
otherwise it is triggered exactly when some detection is strictly
closer than the config's value (the configured operator is ignored),
and on trigger the message names a matching detection of minimum
distance. -/
theorem evaluate_proximity_spec (O : PyOracle) (t : TelemetryCreate)
    (cfg : AlertRuleConfig) :
    ((evaluate_proximity O t cfg).triggered = true ↔
      ∃ d ∈ t.species_detections, d.distance_m < cfg.value)
    ∧ (t.species_detections = [] → ∀ v op,
        evaluate_proximity O t { cfg with value := v, operator := op } = notTriggered)
    ∧ (∀ op, evaluate_proximity O t { cfg with operator := op }
        = evaluate_proximity O t cfg)
    ∧ ((evaluate_proximity O t cfg).triggered = true →
        ∃ closest ∈ t.species_detections.filter (fun d => d.distance_m < cfg.value),
          (∀ d ∈ t.species_detections.filter (fun d => d.distance_m < cfg.value),
            closest.distance_m ≤ d.distance_m)
          ∧ evaluate_proximity O t cfg =
              ⟨true, proximityMessage O closest cfg t,
                "Protected species proximity alert"⟩) := by
  refine ⟨?_, ?_, ?_, ?_⟩
  · by_cases he : t.species_detections.isEmpty
    · rw [List.isEmpty_iff] at he
      simp [evaluate_proximity, he, notTriggered]
    · simp only [evaluate_proximity, he, Bool.false_eq_true, if_false]
      rcases hm : minByDistance
          (t.species_detections.filter (fun d => d.distance_m < cfg.value)) with _ | c
      · rw [minByDistance_eq_none_iff, List.filter_eq_nil_iff] at hm
        simp only [notTriggered, Bool.false_eq_true, false_iff]
        intro ⟨d, hmem, hlt⟩
        exact hm d hmem (by simpa using hlt)
      · have hc := minByDistance_mem hm
        rw [List.mem_filter] at hc
        simp only [true_iff]
        exact ⟨c, hc.1, by simpa using hc.2⟩
  · intro he v op
    have : ({ cfg with value := v, operator := op } : AlertRuleConfig).value = v := rfl
    simp [evaluate_proximity, he]
  · intro op
    rfl
  · by_cases he : t.species_detections.isEmpty
    · simp [evaluate_proximity, he, notTriggered]
    · simp only [evaluate_proximity, he, Bool.false_eq_true, if_false]
      rcases hm : minByDistance
          (t.species_detections.filter (fun d => d.distance_m < cfg.value)) with _ | c
      · simp [notTriggered]
      · intro _
        exact ⟨c, minByDistance_mem hm, minByDistance_min hm, rfl⟩

/-- Closed instance of `evaluate_proximity_spec`: the sample record's
single detection at 120 m against a 150 m threshold. -/
theorem evaluate_proximity_spec_witness :
    ∃ closest ∈ sampleTelemetry.species_detections.filter
        (fun d => d.distance_m < (150 : ℚ)),
      (∀ d ∈ sampleTelemetry.species_detections.filter
          (fun d => d.distance_m < (150 : ℚ)),
        closest.distance_m ≤ d.distance_m)
      ∧ evaluate_proximity trivOracle sampleTelemetry
          { sampleThresholdCfg with type := "proximity", value := 150 } =
          ⟨true, proximityMessage trivOracle closest
              { sampleThresholdCfg with type := "proximity", value := 150 }
              sampleTelemetry,
            "Protected species proximity alert"⟩ :=
  (evaluate_proximity_spec trivOracle sampleTelemetry
    { sampleThresholdCfg with type := "proximity", value := 150 }).2.2.2 rfl

/-- The zone loop triggers on the first firing zone in order. -/
theorem zoneDwellLoop_eq_find (O : PyOracle) (t : TelemetryCreate)
    (cfg : AlertRuleConfig) (zs : List Zone) :
    zoneDwellLoop O t cfg zs =
      match zs.find? (zoneFires O (t.position.lng, t.position.lat)) with
      | some z => ⟨true, zoneMessage O z cfg t, "Zone dwell time exceeded"⟩
      | Option.none => notTriggered := by
  induction zs with
  | nil => rfl
  | cons z rest ih =>
    rw [List.find?_cons]
    by_cases h : zoneFires O (t.position.lng, t.position.lat) z
    · simp only [zoneDwellLoop, h, if_true]
    · simp only [zoneDwellLoop, h, Bool.false_eq_true, if_false, ih]

/-- A non-firing zone anywhere in the list leaves the loop's outcome
unchanged. -/
theorem zoneDwellLoop_skip (O : PyOracle) (t : TelemetryCreate)
    (cfg : AlertRuleConfig) (zbad : Zone)
    (h : zoneFires O (t.position.lng, t.position.lat) zbad = false) :
    ∀ l1 l2 : List Zone,
      zoneDwellLoop O t cfg (l1 ++ zbad :: l2) = zoneDwellLoop O t cfg (l1 ++ l2) := by
  intro l1 l2
  induction l1 with
  | nil => simp [zoneDwellLoop, h]
  | cons z l ih =>
    simp only [List.cons_append, zoneDwellLoop, List.append_eq]
    rw [ih]

/-- C5: `evaluate_zone_dwell` is not triggered without a (truthy)
zone_type; otherwise it triggers exactly when some zone of that type
contains the point `(lng, lat)`, on the first such zone in load order,
and a zone with malformed geometry is skipped without affecting the
other zones. -/
theorem evaluate_zone_dwell_spec (O : PyOracle) (zonesDb : List Zone)
    (t : TelemetryCreate) (cfg : AlertRuleConfig) :
    (zoneTypeFalsy cfg.zone_type = true →
      evaluate_zone_dwell O zonesDb t cfg = notTriggered)
    ∧ (∀ zt, cfg.zone_type = some zt → zt.data.isEmpty = false →
        (evaluate_zone_dwell O zonesDb t cfg =
          match (zonesDb.filter (fun z => z.zone_type == zt)).find?
              (zoneFires O (t.position.lng, t.position.lat)) with
          | some z => ⟨true, zoneMessage O z cfg t, "Zone dwell time exceeded"⟩
          | Option.none => notTriggered)
        ∧ ((evaluate_zone_dwell O zonesDb t cfg).triggered = true ↔
            ∃ z ∈ zonesDb.filter (fun z => z.zone_type == zt),
              zoneFires O (t.position.lng, t.position.lat) z = true))
    ∧ (∀ pre post (zbad : Zone), zbad.geom = GeomField.malformed →
        evaluate_zone_dwell O (pre ++ zbad :: post) t cfg
          = evaluate_zone_dwell O (pre ++ post) t cfg) := by
  refine ⟨?_, ?_, ?_⟩
  · intro hfalsy
    rcases hz : cfg.zone_type with _ | zt
    · simp [evaluate_zone_dwell, hz]
    · simp only [hz, zoneTypeFalsy] at hfalsy
      simp [evaluate_zone_dwell, hz, hfalsy]
  · intro zt hz hne
    have hrepr : evaluate_zone_dwell O zonesDb t cfg =
        zoneDwellLoop O t cfg (zonesDb.filter (fun z => z.zone_type == zt)) := by
      simp [evaluate_zone_dwell, hz, hne]
    refine ⟨by rw [hrepr, zoneDwellLoop_eq_find], ?_⟩
    rw [hrepr, zoneDwellLoop_eq_find]
    rcases hf : (zonesDb.filter (fun z => z.zone_type == zt)).find?
        (zoneFires O (t.position.lng, t.position.lat)) with _ | z
    · rw [hf]
      rw [List.find?_eq_none] at hf
      simp only [notTriggered, Bool.false_eq_true, false_iff]
      intro ⟨z, hmem, hfire⟩
      exact absurd hfire (by simpa using hf z hmem)
    · rw [hf]
      simp only [true_iff]
      exact ⟨z, List.mem_of_find?_eq_some hf, List.find?_some hf⟩
  · intro pre post zbad hbad
    have hfire : zoneFires O (t.position.lng, t.position.lat) zbad = false := by
      simp [zoneFires, hbad]
    rcases hz : cfg.zone_type with _ | zt
    · simp [evaluate_zone_dwell, hz]
    · rcases he : zt.data.isEmpty
      · simp only [evaluate_zone_dwell, hz, he, Bool.false_eq_true, if_false]
        rw [List.filter_append, List.filter_append, List.filter_cons]
        rcases ht : (zbad.zone_type == zt)
        · simp only [ht, Bool.false_eq_true, if_false]
        · simp only [ht, if_true]
          exact zoneDwellLoop_skip O t cfg zbad hfire _ _
      · simp [evaluate_zone_dwell, hz, he]

/-- Closed instance of `evaluate_zone_dwell_spec`: the sample zone-dwell
config against a zone table holding one malformed zone and the sample
rectangle zone. -/
theorem evaluate_zone_dwell_spec_witness :
    (sampleZoneCfg.zone_type = some "sensitive"
      ∧ ("sensitive" : String).data.isEmpty = false
      ∧ badZone.geom = GeomField.malformed)
    ∧ evaluate_zone_dwell trivOracle ([] ++ badZone :: [sampleZone])
        sampleTelemetry sampleZoneCfg
        = evaluate_zone_dwell trivOracle ([] ++ [sampleZone])
            sampleTelemetry sampleZoneCfg :=
  ⟨⟨rfl, rfl, rfl⟩,
    (evaluate_zone_dwell_spec trivOracle ([] ++ badZone :: [sampleZone])
      sampleTelemetry sampleZoneCfg).2.2 [] [sampleZone] badZone rfl⟩

/-- The rule loop keeps exactly the per-rule outcomes. -/
theorem evalRulesLoop_eq_filterMap (O : PyOracle) (zonesDb : List Zone)
    (t : TelemetryCreate) (rules : List AlertRule) :
    evalRulesLoop O zonesDb t rules = rules.filterMap (ruleOutcome O zonesDb t) := by
  induction rules with
  | nil => rfl
  | cons rule rest ih =>
    rw [List.filterMap_cons]
    rcases hp : rule.config.parsed with _ | cfg
    · simp only [evalRulesLoop, ruleOutcome, hp, ih]
    · rcases hd : dispatchRule O zonesDb t cfg with e | r
      · simp only [evalRulesLoop, ruleOutcome, hp, hd, ih]
      · rcases r with _ | r
        · simp only [evalRulesLoop, ruleOutcome, hp, hd, ih]
        · rcases htr : r.triggered
          · simp only [evalRulesLoop, ruleOutcome, hp, hd, htr, Bool.false_eq_true,
              if_false, ih]
          · simp only [evalRulesLoop, ruleOutcome, hp, hd, htr, if_true, ih]

/-- An unrecognized rule type dispatches to the skip branch. -/
theorem dispatchRule_unknown (O : PyOracle) (zonesDb : List Zone)
    (t : TelemetryCreate) (cfg : AlertRuleConfig)
    (h : cfg.type ∉ (["threshold", "battery", "dissolved_oxygen",
        "proximity", "zone_dwell"] : List String)) :
    dispatchRule O zonesDb t cfg = .ok Option.none := by
  simp only [List.mem_cons, List.not_mem_nil, or_false, not_or] at h
  obtain ⟨h1, h2, h3, h4, h5⟩ := h
  simp [dispatchRule, h1, h2, h3, h4, h5]

/-- C8: `evaluate_rules` returns exactly the triggered results of the
active rules that parse and evaluate successfully; a rule that fails to
parse, raises during evaluation, or has an unrecognized type is skipped
without affecting the evaluation of the remaining rules. -/
theorem evaluate_rules_spec (O : PyOracle) (zonesDb : List Zone)
    (rulesDb : List AlertRule) (t : TelemetryCreate) :
    (evaluate_rules O zonesDb rulesDb t =
      (rulesDb.filter (fun r => r.active)).filterMap (ruleOutcome O zonesDb t))
    ∧ (∀ pre post (bad : AlertRule),
        (bad.config.parsed = Option.none
          ∨ (∃ cfg, bad.config.parsed = some cfg
              ∧ dispatchRule O zonesDb t cfg = .error ())
          ∨ (∃ cfg, bad.config.parsed = some cfg
              ∧ cfg.type ∉ (["threshold", "battery", "dissolved_oxygen",
                  "proximity", "zone_dwell"] : List String))) →
        evaluate_rules O zonesDb (pre ++ bad :: post) t
          = evaluate_rules O zonesDb (pre ++ post) t) := by
  constructor
  · exact evalRulesLoop_eq_filterMap O zonesDb t _
  · intro pre post bad hbad
    have houtcome : ruleOutcome O zonesDb t bad = Option.none := by
      rcases hbad with h | ⟨cfg, hp, hd⟩ | ⟨cfg, hp, ht⟩
      · simp [ruleOutcome, h]
      · simp [ruleOutcome, hp, hd]
      · simp [ruleOutcome, hp, dispatchRule_unknown O zonesDb t cfg ht]
    unfold evaluate_rules
    rw [evalRulesLoop_eq_filterMap, evalRulesLoop_eq_filterMap,
      List.filter_append, List.filter_append, List.filter_cons]
    rcases ha : bad.active
    · simp only [Bool.false_eq_true, if_false]
    · simp only [if_true, List.filterMap_append, List.filterMap_cons, houtcome]

/-- Closed instance of `evaluate_rules_spec`: an unparsable active rule
between two positions of the rule table is skipped. -/
theorem evaluate_rules_spec_witness :
    badRule.config.parsed = Option.none
    ∧ evaluate_rules trivOracle [] ([ruleR1] ++ badRule :: []) sampleTelemetry
        = evaluate_rules trivOracle [] ([ruleR1] ++ []) sampleTelemetry :=
  ⟨rfl, (evaluate_rules_spec trivOracle [] ([ruleR1] ++ badRule :: [])
      sampleTelemetry).2 [ruleR1] [] badRule (Or.inl rfl)⟩

/-- What the inner rule loop appends: every created alert comes from an
iterated rule with a truthy dedupe window, carries that rule's id and
severity and the result's title and message, and is published as an
alert event in creation order. -/
theorem processRules_spec (env : IngestEnv) (t : TelemetryCreate)
    (result : RuleEvaluationResult) :
    ∀ (ruleList : List AlertRule) (st st' : IngestState),
      processRules env t result ruleList st = .ok st' →
      ∃ suffix : List AlertRow,
        st'.newAlerts = st.newAlerts ++ suffix
        ∧ st'.events = st.events ++ suffix.map StreamEvent.alertEvent
        ∧ st'.alertsGenerated = st.alertsGenerated + suffix.length
        ∧ ∀ a ∈ suffix, ∃ rule ∈ ruleList,
            truthyDedupe rule.config.dedupe_window_sec_get = true
            ∧ a = mkAlertRow env t result rule := by
  intro ruleList
  induction ruleList with
  | nil =>
    intro st st' h
    simp only [processRules, Except.ok.injEq] at h
    subst h
    exact ⟨[], by simp, by simp, by simp, by simp⟩
  | cons rule rest ih =>
    intro st st' h
    rcases hw : rule.config.dedupe_window_sec_get with _ | w
    · simp only [processRules, hw] at h
      obtain ⟨s, h1, h2, h3, h4⟩ := ih st st' h
      exact ⟨s, h1, h2, h3, fun a ha =>
        (h4 a ha).elim (fun r hr => ⟨r, List.mem_cons_of_mem _ hr.1, hr.2⟩)⟩
    · simp only [processRules, hw] at h
      rcases hz : (w == 0)
      · rw [hz] at h
        simp only [Bool.false_eq_true, if_false] at h
        rcases hc : check_deduplication (env.alertsDb ++ st.newAlerts)
            t.auv_id rule.id w env.now with e | b
        · rw [hc] at h
          cases h
        · rw [hc] at h
          rcases b
          · obtain ⟨s, h1, h2, h3, h4⟩ := ih st st' h
            exact ⟨s, h1, h2, h3, fun a ha =>
              (h4 a ha).elim (fun r hr => ⟨r, List.mem_cons_of_mem _ hr.1, hr.2⟩)⟩
          · obtain ⟨s, h1, h2, h3, h4⟩ := ih _ st' h
            refine ⟨mkAlertRow env t result rule :: s, ?_, ?_, ?_, ?_⟩
            · rw [h1]
              simp
            · rw [h2]
              simp
            · rw [h3]
              simp only [List.length_cons]
              omega
            · intro a ha
              rcases List.mem_cons.mp ha with ha | ha
              · subst ha
                exact ⟨rule, List.mem_cons_self _ _,
                  by simp [truthyDedupe, hw, bne, hz], rfl⟩
              · obtain ⟨r, hr1, hr2⟩ := h4 a ha
                exact ⟨r, List.mem_cons_of_mem _ hr1, hr2⟩
      · rw [hz] at h
        simp only [if_true] at h
        obtain ⟨s, h1, h2, h3, h4⟩ := ih st st' h
        exact ⟨s, h1, h2, h3, fun a ha =>
          (h4 a ha).elim (fun r hr => ⟨r, List.mem_cons_of_mem _ hr.1, hr.2⟩)⟩

/-- What the outer result loop appends: every created alert is a
(result, active rule) pair's row. -/
theorem processResults_spec (env : IngestEnv) (t : TelemetryCreate) :
    ∀ (results : List RuleEvaluationResult) (st st' : IngestState),
      processResults env t results st = .ok st' →
      ∃ suffix : List AlertRow,
        st'.newAlerts = st.newAlerts ++ suffix
        ∧ st'.events = st.events ++ suffix.map StreamEvent.alertEvent
        ∧ st'.alertsGenerated = st.alertsGenerated + suffix.length
        ∧ ∀ a ∈ suffix, ∃ result ∈ results,
            ∃ rule ∈ env.rulesDb.filter (fun r => r.active),
              truthyDedupe rule.config.dedupe_window_sec_get = true
              ∧ a = mkAlertRow env t result rule := by
  intro results
  induction results with
  | nil =>
    intro st st' h
    simp only [processResults, Except.ok.injEq] at h
    subst h
    exact ⟨[], by simp, by simp, by simp, by simp⟩
  | cons result rest ih =>
    intro st st' h
    rw [processResults] at h
    rcases hp : processRules env t result
        (env.rulesDb.filter (fun r => r.active)) st with e | st2
    · rw [hp] at h
      cases h
    · rw [hp] at h
      obtain ⟨s1, g1, g2, g3, g4⟩ := processRules_spec env t result _ st st2 hp
      obtain ⟨s2, i1, i2, i3, i4⟩ := ih st2 st' h
      refine ⟨s1 ++ s2, ?_, ?_, ?_, ?_⟩
      · rw [i1, g1, List.append_assoc]
      · rw [i2, g2, List.map_append, List.append_assoc]
      · rw [i3, g3, List.length_append]
        omega
      · intro a ha
        rcases List.mem_append.mp ha with ha | ha
        · obtain ⟨r, hr1, hr2, hr3⟩ := g4 a ha
          exact ⟨result, List.mem_cons_self _ _, r, hr1, hr2, hr3⟩
        · obtain ⟨res, hres, r, hr1, hr2, hr3⟩ := i4 a ha
          exact ⟨res, List.mem_cons_of_mem _ hres, r, hr1, hr2, hr3⟩

/-- Soundness of a successful ingestion: `alerts_generated` counts the
inserted rows, and every inserted row is the `mkAlertRow` of some
triggered result paired with some active rule carrying a truthy dedupe
window. -/
theorem ingest_telemetry_sound (O : PyOracle) (env : IngestEnv)
    (t : TelemetryCreate) :
    ∀ out, ingest_telemetry O env t = .ok out →
      out.alertsGenerated = out.newAlerts.length
      ∧ ∀ a ∈ out.newAlerts,
          ∃ result ∈ evaluate_rules O env.zonesDb env.rulesDb t,
            ∃ rule ∈ env.rulesDb.filter (fun r => r.active),
              truthyDedupe rule.config.dedupe_window_sec_get = true
              ∧ a = mkAlertRow env t result rule := by
  intro out h
  unfold ingest_telemetry at h
  rcases hp : processResults env t
      (evaluate_rules O env.zonesDb env.rulesDb t) ⟨[], 0, []⟩ with e | st
  · simp only [hp] at h
    cases h
  · simp only [hp, Except.ok.injEq] at h
    subst h
    obtain ⟨s, h1, h2, h3, h4⟩ := processResults_spec env t _ _ _ hp
    simp only [List.nil_append, Nat.zero_add] at h1 h3
    constructor
    · simp [h1, h3]
    · intro a ha
      exact h4 a (by simpa [h1] using ha)

/-- The events of a successful ingestion, in publish order. -/
theorem ingest_telemetry_events (O : PyOracle) (env : IngestEnv)
    (t : TelemetryCreate) :
    ∀ out, ingest_telemetry O env t = .ok out →
      ∃ rows : List AlertRow,
        out.events = rows.map StreamEvent.alertEvent
          ++ [StreamEvent.telemetryEvent t.auv_id] := by
  intro out h
  unfold ingest_telemetry at h
  rcases hp : processResults env t
      (evaluate_rules O env.zonesDb env.rulesDb t) ⟨[], 0, []⟩ with e | st
  · simp only [hp] at h
    cases h
  · simp only [hp, Except.ok.injEq] at h
    subst h
    obtain ⟨s, h1, h2, h3, h4⟩ := processResults_spec env t _ _ _ hp
    simp only [List.nil_append] at h2
    exact ⟨s, by simp [h2]⟩

/-- C9: within a successful ingestion, every alert event for the record
is published before the telemetry event for the record (the telemetry
event is last, after all alert events). -/
theorem ingest_alert_events_precede_telemetry (O : PyOracle)
    (env : IngestEnv) (t : TelemetryCreate) :
    ∀ out, ingest_telemetry O env t = .ok out →
      ∃ pre, out.events = pre ++ [StreamEvent.telemetryEvent t.auv_id]
        ∧ ∀ e ∈ pre, ∃ a, e = StreamEvent.alertEvent a := by
  intro out h
  obtain ⟨rows, hrows⟩ := ingest_telemetry_events O env t out h
  refine ⟨rows.map StreamEvent.alertEvent, hrows, ?_⟩
  intro e he
  obtain ⟨a, _, rfl⟩ := List.mem_map.mp he
  exact ⟨a, rfl⟩

/-- Closed instance of `ingest_alert_events_precede_telemetry` on the
sample ingestion. -/
theorem ingest_alert_events_precede_telemetry_witness :
    ∃ pre, sampleIngestOut.events
        = pre ++ [StreamEvent.telemetryEvent sampleTelemetry.auv_id]
      ∧ ∀ e ∈ pre, ∃ a, e = StreamEvent.alertEvent a :=
  ingest_alert_events_precede_telemetry trivOracle sampleEnv sampleTelemetry
    sampleIngestOut rfl

/-- C10: alert creation pairs every triggered result with every active
rule that carries a truthy dedupe window and passes deduplication; the
created alert takes the rule's id and severity but the result's title
and message, so an alert's rule id can come from a rule other than the
one that triggered, and `alerts_generated` can exceed the number of
triggered results (concretely: one triggered result, two alerts, one of
them under the non-triggering rule `R2`). -/
theorem ingest_cross_pairing_spec (O : PyOracle) (env : IngestEnv)
    (t : TelemetryCreate) :
    (∀ out, ingest_telemetry O env t = .ok out →
      out.alertsGenerated = out.newAlerts.length
      ∧ ∀ a ∈ out.newAlerts,
          ∃ result ∈ evaluate_rules O env.zonesDb env.rulesDb t,
            ∃ rule ∈ env.rulesDb.filter (fun r => r.active),
              truthyDedupe rule.config.dedupe_window_sec_get = true
              ∧ a.rule_id = rule.id
              ∧ a.severity = rule.config.severity_get.getD "medium"
              ∧ a.title = result.title
              ∧ a.message = result.message)
    ∧ evaluate_rules trivOracle sampleEnv.zonesDb sampleEnv.rulesDb sampleTelemetry
        = [sampleResult]
    ∧ ingest_telemetry trivOracle sampleEnv sampleTelemetry = .ok sampleIngestOut
    ∧ sampleIngestOut.alertsGenerated = 2
    ∧ alertRowR2 ∈ sampleIngestOut.newAlerts
    ∧ alertRowR2.rule_id = "R2"
    ∧ alertRowR2.title = sampleResult.title := by
  refine ⟨?_, rfl, rfl, rfl, by simp [sampleIngestOut], rfl, rfl⟩
  intro out h
  obtain ⟨hlen, hsound⟩ := ingest_telemetry_sound O env t out h
  refine ⟨hlen, ?_⟩
  intro a ha
  obtain ⟨result, hres, rule, hrule, htruthy, hrow⟩ := hsound a ha
  subst hrow
  exact ⟨result, hres, rule, hrule, htruthy, rfl, rfl, rfl, rfl⟩

/-- Closed instance of `ingest_cross_pairing_spec` on the sample
ingestion. -/
theorem ingest_cross_pairing_spec_witness :
    sampleIngestOut.alertsGenerated = sampleIngestOut.newAlerts.length :=
  ((ingest_cross_pairing_spec trivOracle sampleEnv sampleTelemetry).1
    sampleIngestOut rfl).1

/-- C7: an active rule whose raw config lacks a truthy
`dedupe_window_sec` never produces an alert and never increments
`alerts_generated`, even when evaluation triggers (provided active rule
ids are distinct, so alert rows are attributable). -/
theorem ingest_no_window_never_alerts (O : PyOracle) (env : IngestEnv)
    (t : TelemetryCreate) (rule : AlertRule)
    (hmem : rule ∈ env.rulesDb) (hact : rule.active = true)
    (hfalsy : truthyDedupe rule.config.dedupe_window_sec_get = false)
    (hids : (env.rulesDb.filter (fun r => r.active)).Pairwise
      (fun r1 r2 => r1.id ≠ r2.id)) :
    ∀ out, ingest_telemetry O env t = .ok out →
      out.alertsGenerated = out.newAlerts.length
      ∧ ∀ a ∈ out.newAlerts, a.rule_id ≠ rule.id := by
  intro out h
  obtain ⟨hlen, hsound⟩ := ingest_telemetry_sound O env t out h
  refine ⟨hlen, ?_⟩
  intro a ha heq
  obtain ⟨result, _, rule2, hrule2, htruthy, hrow⟩ := hsound a ha
  have hrideq : rule2.id = rule.id := by
    rw [← heq, hrow]
    rfl
  have hrulemem : rule ∈ env.rulesDb.filter (fun r => r.active) :=
    List.mem_filter.mpr ⟨hmem, hact⟩
  by_cases hsame : rule2 = rule
  · rw [hsame] at htruthy
    rw [htruthy] at hfalsy
    cases hfalsy
  · have hsymm : Symmetric (fun r1 r2 : AlertRule => r1.id ≠ r2.id) :=
      fun _ _ hne => Ne.symm hne
    exact (hids.forall hsymm hrule2 hrulemem hsame) hrideq

/-- Closed instance of `ingest_no_window_never_alerts`: the single
active rule of `envNoWindow` triggers, yet ingestion creates no alert. -/
theorem ingest_no_window_never_alerts_witness :
    (ruleNoWindow ∈ envNoWindow.rulesDb
      ∧ ruleNoWindow.active = true
      ∧ truthyDedupe ruleNoWindow.config.dedupe_window_sec_get = false
      ∧ (evaluate_rules trivOracle envNoWindow.zonesDb envNoWindow.rulesDb
          sampleTelemetry).length = 1)
    ∧ ((⟨0, [], [.telemetryEvent "AUV-003"]⟩ : IngestOutput).alertsGenerated
        = (⟨0, [], [.telemetryEvent "AUV-003"]⟩ : IngestOutput).newAlerts.length
      ∧ ∀ a ∈ (⟨0, [], [.telemetryEvent "AUV-003"]⟩ : IngestOutput).newAlerts,
          a.rule_id ≠ ruleNoWindow.id) :=
  ⟨⟨by simp [envNoWindow], rfl, rfl, rfl⟩,
    ingest_no_window_never_alerts trivOracle envNoWindow sampleTelemetry
      ruleNoWindow (by simp [envNoWindow]) rfl rfl
      (by simp [envNoWindow, ruleNoWindow])
      ⟨0, [], [.telemetryEvent "AUV-003"]⟩ rfl⟩

/-- A key absent from the dict looks up to nothing. -/
theorem lookupStreams_eq_none (key : String) :
    ∀ reg : Registry, key ∉ reg.map (fun p => p.1) →
      lookupStreams reg key = Option.none := by
  intro reg
  induction reg with
  | nil => intro _; rfl
  | cons entry rest ih =>
    obtain ⟨ka, sinks⟩ := entry
    intro h
    simp only [List.map_cons, List.mem_cons, not_or] at h
    have hb : (ka == key) = false :=
      beq_eq_false_iff_ne.mpr (fun he => h.1 he.symm)
    simp only [lookupStreams, hb, Bool.false_eq_true, if_false]
    exact ih h.2

/-- Removing under one key does not change the lookup of another key. -/
theorem lookupStreams_remove_ne (rkey key : String) (s : Sink)
    (hne : rkey ≠ key) :
    ∀ reg : Registry,
      lookupStreams (remove_alert_stream reg rkey s) key
        = lookupStreams reg key := by
  intro reg
  induction reg with
  | nil => rfl
  | cons entry rest ih =>
    obtain ⟨ka, sinks⟩ := entry
    rcases hk : (ka == rkey)
    · simp only [remove_alert_stream, hk, Bool.false_eq_true, if_false,
        lookupStreams]
      rw [ih]
    · have hka : ka = rkey := by simpa using hk
      have hkey : (ka == key) = false := by
        rw [hka]
        exact beq_eq_false_iff_ne.mpr hne
      simp only [remove_alert_stream, hk, if_true]
      rcases hr : (sinks.filter (fun r => !(r == s))).isEmpty
      · simp only [hr, Bool.false_eq_true, if_false, lookupStreams, hkey]
      · simp only [hr, if_true, lookupStreams, hkey, Bool.false_eq_true, if_false]

/-- Removal never introduces a dict key. -/
theorem keys_remove_subset (rkey : String) (s : Sink) :
    ∀ reg : Registry, ∀ x,
      x ∈ (remove_alert_stream reg rkey s).map (fun p => p.1) →
        x ∈ reg.map (fun p => p.1) := by
  intro reg
  induction reg with
  | nil =>
    intro x hx
    simp [remove_alert_stream] at hx
  | cons entry rest ih =>
    obtain ⟨ka, sinks⟩ := entry
    intro x hx
    rcases hk : (ka == rkey)
    · simp only [remove_alert_stream, hk, Bool.false_eq_true, if_false] at hx
      simp only [List.map_cons, List.mem_cons] at hx ⊢
      exact hx.elim Or.inl (fun h => Or.inr (ih x h))
    · simp only [remove_alert_stream, hk, if_true] at hx
      rcases hr : (sinks.filter (fun r => !(r == s))).isEmpty
      · rw [hr] at hx
        simp only [Bool.false_eq_true, if_false] at hx
        simp only [List.map_cons, List.mem_cons] at hx ⊢
        exact hx
      · rw [hr] at hx
        simp only [if_true] at hx
        simp only [List.map_cons, List.mem_cons]
        exact Or.inr hx

/-- Removal preserves distinctness of the dict keys. -/
theorem keys_nodup_remove (rkey : String) (s : Sink) :
    ∀ reg : Registry, (reg.map (fun p => p.1)).Nodup →
      ((remove_alert_stream reg rkey s).map (fun p => p.1)).Nodup := by
  intro reg
  induction reg with
  | nil => intro h; exact h
  | cons entry rest ih =>
    obtain ⟨ka, sinks⟩ := entry
    intro hnd
    simp only [List.map_cons, List.nodup_cons] at hnd
    rcases hk : (ka == rkey)
    · simp only [remove_alert_stream, hk, Bool.false_eq_true, if_false,
        List.map_cons, List.nodup_cons]
      exact ⟨fun hmem => hnd.1 (keys_remove_subset rkey s rest ka hmem), ih hnd.2⟩
    · simp only [remove_alert_stream, hk, if_true]
      rcases hr : (sinks.filter (fun r => !(r == s))).isEmpty
      · simp only [hr, Bool.false_eq_true, if_false, List.map_cons, List.nodup_cons]
        exact ⟨hnd.1, hnd.2⟩
      · simp only [hr, if_true]
        exact hnd.2

/-- After removing a sink under a key (keys distinct), the sink is no
longer under that key. -/
theorem remove_not_mem (rkey : String) (s : Sink) :
    ∀ reg : Registry, (reg.map (fun p => p.1)).Nodup →
      s ∉ streamsUnder (remove_alert_stream reg rkey s) rkey := by
  intro reg
  induction reg with
  | nil =>
    intro _ h
    simp [remove_alert_stream, streamsUnder, lookupStreams] at h
  | cons entry rest ih =>
    obtain ⟨ka, sinks⟩ := entry
    intro hnd
    simp only [List.map_cons, List.nodup_cons] at hnd
    rcases hk : (ka == rkey)
    · simp only [remove_alert_stream, hk, Bool.false_eq_true, if_false,
        streamsUnder, lookupStreams]
      exact ih hnd.2
    · have hka : ka = rkey := by simpa using hk
      simp only [remove_alert_stream, hk, if_true]
      rcases hr : (sinks.filter (fun r => !(r == s))).isEmpty
      · simp only [hr, Bool.false_eq_true, if_false, streamsUnder,
          lookupStreams, hk, if_true, Option.getD_some]
        intro hmem
        have := (List.mem_filter.mp hmem).2
        simp at this
      · simp only [hr, if_true]
        have hnone : lookupStreams rest rkey = Option.none :=
          lookupStreams_eq_none rkey rest (hka ▸ hnd.1)
        simp [streamsUnder, hnone]

/-- Removal only shrinks the sink list under any key (keys distinct). -/
theorem streamsUnder_remove_subset (rkey key : String) (s x : Sink) :
    ∀ reg : Registry, (reg.map (fun p => p.1)).Nodup →
      x ∈ streamsUnder (remove_alert_stream reg rkey s) key →
        x ∈ streamsUnder reg key := by
  intro reg
  induction reg with
  | nil =>
    intro _ hx
    simpa [remove_alert_stream] using hx
  | cons entry rest ih =>
    obtain ⟨ka, sinks⟩ := entry
    intro hnd hx
    simp only [List.map_cons, List.nodup_cons] at hnd
    rcases hk : (ka == rkey)
    · simp only [remove_alert_stream, hk, Bool.false_eq_true, if_false] at hx
      rcases hkey : (ka == key)
      · simp only [streamsUnder, lookupStreams, hkey, Bool.false_eq_true,
          if_false] at hx ⊢
        exact ih hnd.2 hx
      · simp only [streamsUnder, lookupStreams, hkey, if_true] at hx ⊢
        exact hx
    · have hka : ka = rkey := by simpa using hk
      simp only [remove_alert_stream, hk, if_true] at hx
      rcases hr : (sinks.filter (fun r => !(r == s))).isEmpty
      · rw [hr] at hx
        simp only [Bool.false_eq_true, if_false] at hx
        rcases hkey : (ka == key)
        · simp only [streamsUnder, lookupStreams, hkey, Bool.false_eq_true,
            if_false] at hx ⊢
          exact hx
        · simp only [streamsUnder, lookupStreams, hkey, if_true,
            Option.getD_some] at hx ⊢
          exact List.mem_of_mem_filter hx
      · rw [hr] at hx
        simp only [if_true] at hx
        rcases hkey : (ka == key)
        · simp only [streamsUnder, lookupStreams, hkey, Bool.false_eq_true,
            if_false]
          exact hx
        · have hkeyeq : key = rkey := by
            have h1 : ka = key := by simpa using hkey
            rw [← h1, hka]
          have hnone : lookupStreams rest key = Option.none := by
            apply lookupStreams_eq_none
            rw [hkeyeq, ← hka]
            exact hnd.1
          simp [streamsUnder, hnone] at hx

/-- The send log of the delivery loop: exactly the non-disconnected
sinks of the snapshot, in order, appended to the accumulator. -/
theorem sendLoop_sent (key : String) :
    ∀ (l : List Sink) (reg : Registry) (acc : List Sink),
      (sendLoop key l reg acc).2 = acc ++ l.filter (fun s => !s.disconnected) := by
  intro l
  induction l with
  | nil => intro reg acc; simp [sendLoop]
  | cons x rest ih =>
    intro reg acc
    rcases hd : x.disconnected
    · rcases ho : x.sendOk
      · simp only [sendLoop, hd, ho, Bool.false_eq_true, if_false]
        rw [ih, List.filter_cons_of_pos (by simp [hd])]
        simp
      · simp only [sendLoop, hd, ho, Bool.false_eq_true, if_false, if_true]
        rw [ih, List.filter_cons_of_pos (by simp [hd])]
        simp
    · simp only [sendLoop, hd, if_true]
      rw [ih, List.filter_cons_of_neg (by simp [hd])]

/-- Counting occurrences is unchanged by a filter the element passes. -/
theorem count_filter_eq {p : Sink → Bool} {s : Sink} (hp : p s = true) :
    ∀ l : List Sink, (l.filter p).count s = l.count s := by
  intro l
  induction l with
  | nil => rfl
  | cons a rest ih =>
    rcases hpa : p a
    · have hne : (a == s) = false := by
        rcases hsa : (a == s)
        · rfl
        · have heq : a = s := by simpa using hsa
          rw [heq, hp] at hpa
          cases hpa
      rw [List.filter_cons_of_neg (by simp [hpa])]
      rw [ih, List.count_cons]
      simp [hne]
    · rw [List.filter_cons_of_pos (by simp [hpa])]
      rw [List.count_cons, List.count_cons, ih]

/-- The delivery loop never touches entries of other keys. -/
theorem sendLoop_lookup_ne (key k2 : String) (h : k2 ≠ key) :
    ∀ (l : List Sink) (reg : Registry) (acc : List Sink),
      lookupStreams ((sendLoop key l reg acc).1) k2 = lookupStreams reg k2 := by
  intro l
  induction l with
  | nil => intro reg acc; rfl
  | cons x rest ih =>
    intro reg acc
    rcases hd : x.disconnected
    · rcases ho : x.sendOk
      · simp only [sendLoop, hd, ho, Bool.false_eq_true, if_false]
        rw [ih, lookupStreams_remove_ne key k2 x (Ne.symm h)]
      · simp only [sendLoop, hd, ho, Bool.false_eq_true, if_false, if_true]
        rw [ih]
    · simp only [sendLoop, hd, if_true]
      rw [ih, lookupStreams_remove_ne key k2 x (Ne.symm h)]

/-- The delivery loop preserves distinctness of the dict keys. -/
theorem sendLoop_keys_nodup (key : String) :
    ∀ (l : List Sink) (reg : Registry) (acc : List Sink),
      (reg.map (fun p => p.1)).Nodup →
      (((sendLoop key l reg acc).1).map (fun p => p.1)).Nodup := by
  intro l
  induction l with
  | nil => intro reg acc h; exact h
  | cons x rest ih =>
    intro reg acc hnd
    rcases hd : x.disconnected
    · rcases ho : x.sendOk
      · simp only [sendLoop, hd, ho, Bool.false_eq_true, if_false]
        exact ih _ _ (keys_nodup_remove key x reg hnd)
      · simp only [sendLoop, hd, ho, Bool.false_eq_true, if_false, if_true]
        exact ih _ _ hnd
    · simp only [sendLoop, hd, if_true]
      exact ih _ _ (keys_nodup_remove key x reg hnd)

/-- A sink already absent under a key stays absent through the delivery
loop (pruning only removes). -/
theorem sendLoop_not_mem (key k2 : String) (x : Sink) :
    ∀ (l : List Sink) (reg : Registry) (acc : List Sink),
      (reg.map (fun p => p.1)).Nodup → x ∉ streamsUnder reg k2 →
      x ∉ streamsUnder ((sendLoop key l reg acc).1) k2 := by
  intro l
  induction l with
  | nil => intro reg acc _ hx; exact hx
  | cons y rest ih =>
    intro reg acc hnd hx
    rcases hd : y.disconnected
    · rcases ho : y.sendOk
      · simp only [sendLoop, hd, ho, Bool.false_eq_true, if_false]
        exact ih _ _ (keys_nodup_remove key y reg hnd)
          (fun hmem => hx (streamsUnder_remove_subset key k2 y x reg hnd hmem))
      · simp only [sendLoop, hd, ho, Bool.false_eq_true, if_false, if_true]
        exact ih _ _ hnd hx
    · simp only [sendLoop, hd, if_true]
      exact ih _ _ (keys_nodup_remove key y reg hnd)
        (fun hmem => hx (streamsUnder_remove_subset key k2 y x reg hnd hmem))

/-- Every snapshot sink that is disconnected or whose send fails has
been pruned from the loop's key by the end of the loop. -/
theorem sendLoop_prunes (key : String) :
    ∀ (l : List Sink) (reg : Registry) (acc : List Sink),
      (reg.map (fun p => p.1)).Nodup →
      ∀ s ∈ l, (s.disconnected = true ∨ s.sendOk = false) →
        s ∉ streamsUnder ((sendLoop key l reg acc).1) key := by
  intro l
  induction l with
  | nil =>
    intro reg acc _ s hs
    simp at hs
  | cons x rest ih =>
    intro reg acc hnd s hs hbad
    rcases List.mem_cons.mp hs with hsx | hs2
    · subst hsx
      rcases hd : s.disconnected
      · rcases hbad with hb | hb
        · rw [hd] at hb
          cases hb
        · simp only [sendLoop, hd, hb, Bool.false_eq_true, if_false]
          exact sendLoop_not_mem key key s rest _ _
            (keys_nodup_remove key s reg hnd) (remove_not_mem key s reg hnd)
      · simp only [sendLoop, hd, if_true]
        exact sendLoop_not_mem key key s rest _ _
          (keys_nodup_remove key s reg hnd) (remove_not_mem key s reg hnd)
    · rcases hd : x.disconnected
      · rcases ho : x.sendOk
        · simp only [sendLoop, hd, ho, Bool.false_eq_true, if_false]
          exact ih _ _ (keys_nodup_remove key x reg hnd) s hs2 hbad
        · simp only [sendLoop, hd, ho, Bool.false_eq_true, if_false, if_true]
          exact ih _ _ hnd s hs2 hbad
      · simp only [sendLoop, hd, if_true]
        exact ih _ _ (keys_nodup_remove key x reg hnd) s hs2 hbad

/-- The send log of one pass: the non-disconnected sinks under the
key. -/
theorem send_to_alert_streams_sent (reg : Registry) (key : String) :
    (send_to_alert_streams reg key).2
      = (streamsUnder reg key).filter (fun s => !s.disconnected) := by
  unfold send_to_alert_streams
  rcases h : lookupStreams reg key with _ | streams
  · simp [streamsUnder, h]
  · simp [streamsUnder, h, sendLoop_sent]

/-- One pass leaves the entries of other keys untouched. -/
theorem send_to_alert_streams_lookup_ne (reg : Registry) (key k2 : String)
    (h : k2 ≠ key) :
    lookupStreams ((send_to_alert_streams reg key).1) k2
      = lookupStreams reg k2 := by
  unfold send_to_alert_streams
  rcases hl : lookupStreams reg key with _ | streams
  · rfl
  · exact sendLoop_lookup_ne key k2 h streams reg []

/-- One pass preserves distinctness of the dict keys. -/
theorem send_to_alert_streams_keys_nodup (reg : Registry) (key : String)
    (hnd : (reg.map (fun p => p.1)).Nodup) :
    (((send_to_alert_streams reg key).1).map (fun p => p.1)).Nodup := by
  unfold send_to_alert_streams
  rcases hl : lookupStreams reg key with _ | streams
  · exact hnd
  · exact sendLoop_keys_nodup key streams reg [] hnd

/-- One pass prunes every disconnected or failing sink from its key. -/
theorem send_to_alert_streams_prunes (reg : Registry) (key : String)
    (hnd : (reg.map (fun p => p.1)).Nodup) :
    ∀ s ∈ streamsUnder reg key, (s.disconnected = true ∨ s.sendOk = false) →
      s ∉ streamsUnder ((send_to_alert_streams reg key).1) key := by
  intro s hs hbad
  unfold send_to_alert_streams
  rcases hl : lookupStreams reg key with _ | streams
  · simp [streamsUnder, hl] at hs
  · exact sendLoop_prunes key streams reg [] hnd s
      (by simpa [streamsUnder, hl] using hs) hbad

/-- C2: publishing with a specific key sends once per registration to
the connected sinks under that key and, independently, to those under
`"all"` (a sink registered under both receives the event twice); a
disconnected sink never receives send and is pruned from its key, a
sink whose send raises is pruned as well, and pruning never prevents
delivery to the remaining sinks of the same publish call. -/
theorem send_alert_event_spec (reg : Registry) (key : String)
    (hnd : (reg.map (fun p => p.1)).Nodup)
    (hkey : key ≠ "all") (hne : key.data.isEmpty = false) :
    (∀ s : Sink, s.disconnected = true →
      s ∉ (send_alert_event reg (some key)).2)
    ∧ (∀ s : Sink, s.disconnected = false →
        ((send_alert_event reg (some key)).2).count s
          = (streamsUnder reg key).count s + (streamsUnder reg "all").count s)
    ∧ (∀ s ∈ streamsUnder reg key,
        (s.disconnected = true ∨ s.sendOk = false) →
          s ∉ streamsUnder ((send_alert_event reg (some key)).1) key)
    ∧ (∀ s ∈ streamsUnder reg "all",
        (s.disconnected = true ∨ s.sendOk = false) →
          s ∉ streamsUnder ((send_alert_event reg (some key)).1) "all") := by
  have hstep : send_alert_event reg (some key)
      = ((send_to_alert_streams (send_to_alert_streams reg key).1 "all").1,
         (send_to_alert_streams reg key).2
           ++ (send_to_alert_streams (send_to_alert_streams reg key).1 "all").2) := by
    simp [send_alert_event, hne]
  have hA : (send_to_alert_streams reg key).2
      = (streamsUnder reg key).filter (fun s => !s.disconnected) :=
    send_to_alert_streams_sent reg key
  have hlookupAll :
      lookupStreams ((send_to_alert_streams reg key).1) "all"
        = lookupStreams reg "all" :=
    send_to_alert_streams_lookup_ne reg key "all" (Ne.symm hkey)
  have hAll : streamsUnder ((send_to_alert_streams reg key).1) "all"
      = streamsUnder reg "all" := by
    simp [streamsUnder, hlookupAll]
  have hB : (send_to_alert_streams ((send_to_alert_streams reg key).1) "all").2
      = (streamsUnder reg "all").filter (fun s => !s.disconnected) := by
    rw [send_to_alert_streams_sent, hAll]
  have hnd1 : (((send_to_alert_streams reg key).1).map (fun p => p.1)).Nodup :=
    send_to_alert_streams_keys_nodup reg key hnd
  refine ⟨?_, ?_, ?_, ?_⟩
  · intro s hdisc hmem
    rw [hstep] at hmem
    simp only [List.mem_append] at hmem
    rcases hmem with hmem | hmem
    · rw [hA] at hmem
      have := (List.mem_filter.mp hmem).2
      rw [hdisc] at this
      simp at this
    · rw [hB] at hmem
      have := (List.mem_filter.mp hmem).2
      rw [hdisc] at this
      simp at this
  · intro s hconn
    rw [hstep]
    simp only [List.count_append]
    rw [hA, hB, count_filter_eq (by simp [hconn]), count_filter_eq (by simp [hconn])]
  · intro s hs hbad
    rw [hstep]
    have h1 : s ∉ streamsUnder ((send_to_alert_streams reg key).1) key :=
      send_to_alert_streams_prunes reg key hnd s hs hbad
    have h2 : lookupStreams
        ((send_to_alert_streams ((send_to_alert_streams reg key).1) "all").1) key
          = lookupStreams ((send_to_alert_streams reg key).1) key :=
      send_to_alert_streams_lookup_ne _ "all" key hkey
    simpa [streamsUnder, h2] using h1
  · intro s hs hbad
    rw [hstep]
    exact send_to_alert_streams_prunes _ "all" hnd1 s (hAll ▸ hs) hbad

/-- Closed instance of `send_alert_event_spec` on the sample registry
(one connected sink under the key, one under `"all"`, one disconnected
sink under the key). -/
theorem send_alert_event_spec_witness :
    ((sampleRegistry.map (fun p => p.1)).Nodup
      ∧ ("AUV-001" : String) ≠ "all"
      ∧ ("AUV-001" : String).data.isEmpty = false)
    ∧ (send_alert_event sampleRegistry (some "AUV-001")).2 = [sinkA, sinkB]
    ∧ (send_alert_event sampleRegistry (some "AUV-001")).1
        = [("AUV-001", [sinkA]), ("all", [sinkB])]
    ∧ (∀ s : Sink, s.disconnected = false →
        ((send_alert_event sampleRegistry (some "AUV-001")).2).count s
          = (streamsUnder sampleRegistry "AUV-001").count s
            + (streamsUnder sampleRegistry "all").count s) :=
  ⟨⟨by decide, by decide, by decide⟩, by decide, by decide,
    (send_alert_event_spec sampleRegistry "AUV-001"
      (by decide) (by decide) (by decide)).2.1⟩

end TelemetrySpec
